import Mathlib

/-!
Verification of the sso-idp SAML identity provider against its specification.

The Go sources under `idp/` and `client/` are shallowly embedded: pure string
manipulation is carried out on `List Char`, Go maps are modelled as
association lists with most-recent-insert-first semantics, external
cryptographic libraries (base64, SHA, RSA/DSA verification, ASN.1, X.509
parsing) are passed in as explicit environments, and the wall clock and fresh
identifiers are explicit parameters.
-/

set_option autoImplicit false

namespace SsoIdp

/-- Shorthand for the character-list view of a Go string. -/
def str (s : String) : List Char := s.toList

/-! ## Service-provider data model (idp/sp.go) -/

/-- Embeds `AssertionConsumerService` from idp/sp.go: index, default flag,
binding and location of one ACS endpoint from SP metadata. -/
structure AssertionConsumerService where
  Index : Nat
  IsDefault : Bool
  Binding : String
  Location : String
deriving DecidableEq, Repr

/-- Embeds the public-key kinds Go's `x509.ParseCertificate` can place in
`Certificate.PublicKey`: RSA, DSA, ECDSA or Ed25519. The key material itself
is irrelevant to the claims, so each carries an opaque numeric identifier. -/
inductive PublicKey where
  | rsa (key : Nat)
  | dsa (key : Nat)
  | ecdsa (key : Nat)
  | ed25519 (key : Nat)
deriving DecidableEq, Repr

/-- Embeds `ServiceProvider` from idp/sp.go. `publicKey` is `none` until
`parseCertificate` has run, mirroring the nil interface value. -/
structure ServiceProvider where
  EntityID : String
  AssertionConsumerServices : List AssertionConsumerService
  Certificate : String
  publicKey : Option PublicKey := none
deriving DecidableEq, Repr

/-! ## SAML authentication request (saml model) -/

/-- Embeds the fields of `saml.AuthnRequest` consumed by
`validateAuthRequest` in idp/sso.go. -/
structure SamlAuthnRequest where
  ID : String
  Issuer : String
  AssertionConsumerServiceURL : String
  AssertionConsumerServiceIndex : Nat
  ProtocolBinding : String
deriving DecidableEq, Repr

/-! ## ACS selection (idp/sso.go, validateAuthRequest lines 53-67)

The Go loop keeps a running candidate `acs`: an entry whose `Index` matches
the request breaks immediately, an entry whose `Location` matches the request
URL breaks immediately, and a default entry merely overwrites the candidate
and the scan continues. -/

/-- Embeds the `for i, a := range sp.AssertionConsumerServices` loop of
`validateAuthRequest`; `acc` is the current value of the Go variable `acs`. -/
def selectACSGo (request : SamlAuthnRequest) :
    List AssertionConsumerService → Option AssertionConsumerService →
    Option AssertionConsumerService
  | [], acc => acc
  | a :: rest, acc =>
    if a.Index = request.AssertionConsumerServiceIndex then some a
    else if a.Location = request.AssertionConsumerServiceURL then some a
    else if a.IsDefault then selectACSGo request rest (some a)
    else selectACSGo request rest acc

/-- The assertion-consumer-service choice made by `validateAuthRequest`. -/
def selectACS (sp : ServiceProvider) (request : SamlAuthnRequest) :
    Option AssertionConsumerService :=
  selectACSGo request sp.AssertionConsumerServices none

/-- Last entry of the list marked `IsDefault` (characterisation helper for
the amended selection claim). -/
def lastDefault : List AssertionConsumerService → Option AssertionConsumerService
  | [] => none
  | a :: rest =>
    match lastDefault rest with
    | some d => some d
    | none => if a.IsDefault then some a else none

/-- Characterisation of the selection actually implemented: the first entry
in metadata order matching the request index or the request URL wins;
otherwise the last default entry is chosen. -/
def firstMatchThenLastDefault (request : SamlAuthnRequest)
    (entries : List AssertionConsumerService) : Option AssertionConsumerService :=
  match entries.find? (fun a =>
      decide (a.Index = request.AssertionConsumerServiceIndex) ||
      decide (a.Location = request.AssertionConsumerServiceURL)) with
  | some a => some a
  | none => lastDefault entries

theorem selectACSGo_characterisation (request : SamlAuthnRequest)
    (entries : List AssertionConsumerService) :
    ∀ acc : Option AssertionConsumerService,
      selectACSGo request entries acc =
        match entries.find? (fun a =>
            decide (a.Index = request.AssertionConsumerServiceIndex) ||
            decide (a.Location = request.AssertionConsumerServiceURL)) with
        | some a => some a
        | none =>
          match lastDefault entries with
          | some d => some d
          | none => acc := by
  induction entries with
  | nil => intro acc; simp [selectACSGo, lastDefault]
  | cons a rest ih =>
    intro acc
    by_cases hidx : a.Index = request.AssertionConsumerServiceIndex
    · simp [selectACSGo, hidx, List.find?]
    · by_cases hurl : a.Location = request.AssertionConsumerServiceURL
      · simp [selectACSGo, hidx, hurl, List.find?]
      · by_cases hdef : a.IsDefault
        · simp only [selectACSGo, if_neg hidx, if_neg hurl, if_pos hdef,
            List.find?, decide_eq_true_eq]
          rw [ih (some a)]
          simp only [hidx, hurl, decide_eq_false_iff_not, Bool.or_false, lastDefault]
          cases hfind : rest.find? (fun a =>
              decide (a.Index = request.AssertionConsumerServiceIndex) ||
              decide (a.Location = request.AssertionConsumerServiceURL)) with
          | none =>
            cases hlast : lastDefault rest with
            | none => simp [hdef]
            | some d => simp
          | some b => simp
        · simp only [selectACSGo, if_neg hidx, if_neg hurl, if_neg hdef,
            List.find?]
          rw [ih acc]
          simp only [hidx, hurl, decide_eq_false_iff_not, Bool.or_false, lastDefault]
          cases hfind : rest.find? (fun a =>
              decide (a.Index = request.AssertionConsumerServiceIndex) ||
              decide (a.Location = request.AssertionConsumerServiceURL)) with
          | none =>
            cases hlast : lastDefault rest with
            | none => simp [hdef]
            | some d => simp
          | some b => simp

/-- Claim C1 (counterexample): with ACS entries `[{Index 5, Location "u"},
{Index 7, Location "w"}]` (both non-default) and a request naming index `7`
and URL `"u"`, the code selects the first entry by URL match although a later
entry matches the requested index, and swapping the two non-default entries
with distinct indices changes the selection. -/
theorem claim1_counterexample :
    (selectACS
        { EntityID := "https://sp.example/"
          AssertionConsumerServices :=
            [{ Index := 5, IsDefault := false, Binding := "b", Location := "u" },
             { Index := 7, IsDefault := false, Binding := "b", Location := "w" }]
          Certificate := "c" }
        { ID := "_id", Issuer := "https://sp.example/",
          AssertionConsumerServiceURL := "u",
          AssertionConsumerServiceIndex := 7, ProtocolBinding := "b" } =
      some { Index := 5, IsDefault := false, Binding := "b", Location := "u" })
    ∧ (selectACS
        { EntityID := "https://sp.example/"
          AssertionConsumerServices :=
            [{ Index := 7, IsDefault := false, Binding := "b", Location := "w" },
             { Index := 5, IsDefault := false, Binding := "b", Location := "u" }]
          Certificate := "c" }
        { ID := "_id", Issuer := "https://sp.example/",
          AssertionConsumerServiceURL := "u",
          AssertionConsumerServiceIndex := 7, ProtocolBinding := "b" } =
      some { Index := 7, IsDefault := false, Binding := "b", Location := "w" }) := by
  constructor <;> rfl

/-- Claim C1 (amended): the ACS chosen by `validateAuthRequest` is the first
entry in metadata order whose `Index` equals the request index or whose
`Location` equals the request URL (the index test running before the URL test
on each entry); if no entry matches either, the last entry with
`IsDefault = true` is chosen. -/
theorem claim1_amended (sp : ServiceProvider) (request : SamlAuthnRequest) :
    selectACS sp request = firstMatchThenLastDefault request sp.AssertionConsumerServices := by
  unfold selectACS firstMatchThenLastDefault
  rw [selectACSGo_characterisation]
  cases sp.AssertionConsumerServices.find? (fun a =>
      decide (a.Index = request.AssertionConsumerServiceIndex) ||
      decide (a.Location = request.AssertionConsumerServiceURL)) with
  | some a => rfl
  | none => cases lastDefault sp.AssertionConsumerServices <;> rfl

/-! ## Redirect signature verification (idp/sso.go, verifySignature lines 110-149)

Go maps are embedded as association lists where an assignment conses the new
pair in front, so lookups see the most recent binding first. External
cryptographic primitives (base64, SHA digests, RSA/DSA verification, ASN.1
decoding) are supplied through a `CryptoEnv`. -/

/-- Lookup in the embedded Go map: the value of the most recent assignment. -/
def mapFind (m : List (List Char × List Char)) (k : List Char) : Option (List Char) :=
  (m.find? (fun p => decide (p.1 = k))).map Prod.snd

/-- Embeds the first loop of `verifySignature`: split each `&`-separated
component on `=`, fail unless it has exactly two parts, and assign it into
the map `pMap`. -/
def buildPMap : List (List Char) → List (List Char × List Char) →
    Except (List Char) (List (List Char × List Char))
  | [], m => .ok m
  | p :: ps, m =>
    match p.splitOn '=' with
    | [k, v] => buildPMap ps ((k, v) :: m)
    | _ => .error (str "trouble validating signature on request")

/-- Embeds the `sigparts` construction of `verifySignature` lines 122-127:
`SAMLRequest=<v>`, then `RelayState=<v>` only when the key is present, then
`SigAlg=<v>`, joined with `&`. Absent `SAMLRequest`/`SigAlg` keys read as the
empty string, as Go map indexing does. -/
def canonicalSigString (pMap : List (List Char × List Char)) : List Char :=
  let sigparts := [str "SAMLRequest=" ++ (mapFind pMap (str "SAMLRequest")).getD []]
  let sigparts :=
    match mapFind pMap (str "RelayState") with
    | some state => sigparts ++ [str "RelayState=" ++ state]
    | none => sigparts
  let sigparts := sigparts ++ [str "SigAlg=" ++ (mapFind pMap (str "SigAlg")).getD []]
  (str "&").intercalate sigparts

/-- The byte string over which `verifySignature` computes the digest, or the
parse error raised while building `pMap` from the raw query. -/
def canonicalOfQuery (rawQuery : List Char) : Except (List Char) (List Char) :=
  (buildPMap (rawQuery.splitOn '&') []).map canonicalSigString

/-- Hash choice passed to `rsa.VerifyPKCS1v15`. -/
inductive HashAlg where
  | sha1
  | sha256
deriving DecidableEq, Repr

/-- External cryptographic primitives used by `verifySignature`, embedded as
an explicit environment: base64 decoding of the `Signature` parameter, the
two digests, PKCS#1 v1.5 RSA verification, ASN.1 decoding of a DSA
signature into `(R, S)` plus trailing bytes, and DSA verification. -/
structure CryptoEnv where
  b64decode : List Char → Except (List Char) (List Nat)
  sha1 : List Char → List Nat
  sha256 : List Char → List Nat
  rsaVerify : Nat → HashAlg → List Nat → List Nat → Bool
  asn1Dsa : List Nat → Except (List Char) ((Int × Int) × List Nat)
  dsaVerify : Nat → List Nat → Int → Int → Bool

/-- Outcome of signature verification: success, a returned error, or a Go
panic (a failed interface type assertion). -/
inductive VResult where
  | ok
  | verror (msg : List Char)
  | panicked
deriving DecidableEq, Repr

def rsaSha1URI : String := "http://www.w3.org/2000/09/xmldsig#rsa-sha1"
def rsaSha256URI : String := "http://www.w3.org/2001/04/xmldsig-more#rsa-sha256"
def dsaSha1URI : String := "http://www.w3.org/2000/09/xmldsig#dsa-sha1"
def dsaSha256URI : String := "http://www.w3.org/2009/xmldsig11#dsa-sha256"

/-- Embeds `verifyDSA` from idp/sso.go lines 151-165: ASN.1-decode the
signature, reject trailing bytes, reject non-positive `R` or `S`, then
verify; the type assertion `sp.publicKey.(*dsa.PublicKey)` panics unless the
stored key is DSA. -/
def verifyDSA (env : CryptoEnv) (sp : ServiceProvider) (signature sum : List Nat) : VResult :=
  match env.asn1Dsa signature with
  | .error e => .verror e
  | .ok ((r, s), rest) =>
    if rest ≠ [] then .verror (str "trailing data after DSA signature")
    else if r ≤ 0 ∨ s ≤ 0 then
      .verror (str "DSA signature contained zero or negative values")
    else
      match sp.publicKey with
      | some (.dsa key) =>
        if env.dsaVerify key sum r s then .ok
        else .verror (str "DSA verification failure")
      | _ => .panicked

/-- Embeds `verifySignature` from idp/sso.go lines 110-149: build `pMap`
from the raw query, assemble the canonical string, base64-decode the
signature, then dispatch on the algorithm URI; unknown URIs produce the
unsupported-algorithm error. -/
def verifySignature (env : CryptoEnv) (rawQuery alg expectedSig : List Char)
    (sp : ServiceProvider) : VResult :=
  match buildPMap (rawQuery.splitOn '&') [] with
  | .error e => .verror e
  | .ok pMap =>
    let sig := canonicalSigString pMap
    match env.b64decode expectedSig with
    | .error e => .verror e
    | .ok signature =>
      if alg = str dsaSha256URI then verifyDSA env sp signature (env.sha256 sig)
      else if alg = str dsaSha1URI then verifyDSA env sp signature (env.sha1 sig)
      else if alg = str rsaSha1URI then
        match sp.publicKey with
        | some (.rsa key) =>
          if env.rsaVerify key .sha1 (env.sha1 sig) signature then .ok
          else .verror (str "crypto/rsa: verification error")
        | _ => .panicked
      else if alg = str rsaSha256URI then
        match sp.publicKey with
        | some (.rsa key) =>
          if env.rsaVerify key .sha256 (env.sha256 sig) signature then .ok
          else .verror (str "crypto/rsa: verification error")
        | _ => .panicked
      else .verror (str "unsupported signature algorithm, " ++ alg)

/-- A concrete environment whose primitives all answer trivially; used to
instantiate theorems at concrete inputs. -/
def envNull : CryptoEnv where
  b64decode := fun _ => .ok []
  sha1 := fun _ => []
  sha256 := fun _ => []
  rsaVerify := fun _ _ _ _ => false
  asn1Dsa := fun _ => .error (str "asn1: syntax error")
  dsaVerify := fun _ _ _ _ => false

theorem buildPMap_error_of_badPart :
    ∀ (parts : List (List Char)) (m : List (List Char × List Char)),
      (∃ p ∈ parts, (p.splitOn '=').length ≠ 2) →
      buildPMap parts m = .error (str "trouble validating signature on request") := by
  intro parts
  induction parts with
  | nil =>
    intro m h
    simp at h
  | cons p ps ih =>
    intro m h
    obtain ⟨q, hq, hlen⟩ := h
    simp only [buildPMap]
    split
    · rename_i k v hsplit
      rcases List.mem_cons.mp hq with rfl | hq'
      · exact absurd (by rw [hsplit]; rfl) hlen
      · exact ih _ ⟨q, hq', hlen⟩
    · rfl

/-- Claim C10: whenever some `&`-separated component of the raw query does
not split on `=` into exactly two parts, `verifySignature` returns the
parse error, regardless of the algorithm, signature value or key. -/
theorem claim10_malformed_component (env : CryptoEnv)
    (rawQuery alg expectedSig : List Char) (sp : ServiceProvider)
    (hbad : ∃ p ∈ rawQuery.splitOn '&', (p.splitOn '=').length ≠ 2) :
    verifySignature env rawQuery alg expectedSig sp =
      .verror (str "trouble validating signature on request") := by
  unfold verifySignature
  rw [buildPMap_error_of_badPart _ _ hbad]

/-- Claim C10 witness: the component `junk` of the concrete query
`SAMLRequest=a&junk&SigAlg=b` has no `=`, so verification errors out. -/
theorem claim10_witness :
    verifySignature envNull (str "SAMLRequest=a&junk&SigAlg=b") (str "alg")
      (str "sig")
      { EntityID := "e", AssertionConsumerServices := [], Certificate := "c" } =
      .verror (str "trouble validating signature on request") :=
  claim10_malformed_component envNull _ _ _ _ (by decide)

/-- Claim C6 (counterexample): with the malformed raw query `x` and the
unknown algorithm `bogus`, `verifySignature` fails with the query-parsing
error, not with the unsupported-algorithm error, so failure with the
unsupported-algorithm error is not guaranteed for every raw query. -/
theorem claim6_counterexample :
    (verifySignature envNull (str "x") (str "bogus") (str "")
        { EntityID := "e", AssertionConsumerServices := [], Certificate := "c" } =
      .verror (str "trouble validating signature on request"))
    ∧ str "bogus" ≠ str dsaSha256URI ∧ str "bogus" ≠ str dsaSha1URI
    ∧ str "bogus" ≠ str rsaSha1URI ∧ str "bogus" ≠ str rsaSha256URI
    ∧ verifySignature envNull (str "x") (str "bogus") (str "")
        { EntityID := "e", AssertionConsumerServices := [], Certificate := "c" } ≠
      .verror (str "unsupported signature algorithm, " ++ str "bogus") := by
  refine ⟨rfl, by decide, by decide, by decide, by decide, by decide⟩

/-- Claim C6 (amended): provided the raw query parses into `pMap` and the
signature value base64-decodes, an algorithm other than the four supported
URIs yields the unsupported-algorithm error; and `verifyDSA` rejects ASN.1
decodings with trailing bytes and signatures with `R ≤ 0` or `S ≤ 0`. -/
theorem claim6_amended :
    (∀ (env : CryptoEnv) (rawQuery alg expectedSig : List Char)
        (sp : ServiceProvider) (pMap : List (List Char × List Char))
        (sigBytes : List Nat),
        buildPMap (rawQuery.splitOn '&') [] = .ok pMap →
        env.b64decode expectedSig = .ok sigBytes →
        alg ≠ str dsaSha256URI → alg ≠ str dsaSha1URI →
        alg ≠ str rsaSha1URI → alg ≠ str rsaSha256URI →
        verifySignature env rawQuery alg expectedSig sp =
          .verror (str "unsupported signature algorithm, " ++ alg))
    ∧ (∀ (env : CryptoEnv) (sp : ServiceProvider) (signature sum : List Nat)
        (r s : Int) (rest : List Nat),
        env.asn1Dsa signature = .ok ((r, s), rest) → rest ≠ [] →
        verifyDSA env sp signature sum =
          .verror (str "trailing data after DSA signature"))
    ∧ (∀ (env : CryptoEnv) (sp : ServiceProvider) (signature sum : List Nat)
        (r s : Int),
        env.asn1Dsa signature = .ok ((r, s), []) → r ≤ 0 ∨ s ≤ 0 →
        verifyDSA env sp signature sum =
          .verror (str "DSA signature contained zero or negative values")) := by
  refine ⟨?_, ?_, ?_⟩
  · intro env rawQuery alg expectedSig sp pMap sigBytes hmap hb64 h1 h2 h3 h4
    unfold verifySignature
    rw [hmap]
    simp only [hb64, if_neg h1, if_neg h2, if_neg h3, if_neg h4]
  · intro env sp signature sum r s rest hasn hrest
    unfold verifyDSA
    rw [hasn]
    simp [hrest]
  · intro env sp signature sum r s hasn hrs
    unfold verifyDSA
    rw [hasn]
    simp [hrs]

/-- A concrete environment for instantiating the claim C6 results: the
ASN.1 oracle reports trailing bytes for the input `[0]` and a zero `R`
value for the input `[1]`. -/
def envTrailing : CryptoEnv where
  b64decode := fun _ => .ok []
  sha1 := fun _ => []
  sha256 := fun _ => []
  rsaVerify := fun _ _ _ _ => false
  asn1Dsa := fun bytes => if bytes = [0] then .ok ((1, 1), [7]) else .ok ((0, 1), [])
  dsaVerify := fun _ _ _ _ => false

/-- Claim C6 witness: concrete instances of the three amended statements. -/
theorem claim6_witness :
    (verifySignature envTrailing (str "SAMLRequest=a&SigAlg=b") (str "bogus")
        (str "s")
        { EntityID := "e", AssertionConsumerServices := [], Certificate := "c" } =
      .verror (str "unsupported signature algorithm, " ++ str "bogus"))
    ∧ (verifyDSA envTrailing
        { EntityID := "e", AssertionConsumerServices := [], Certificate := "c" }
        [0] [] = .verror (str "trailing data after DSA signature"))
    ∧ (verifyDSA envTrailing
        { EntityID := "e", AssertionConsumerServices := [], Certificate := "c" }
        [1] [] = .verror (str "DSA signature contained zero or negative values")) := by
  refine ⟨?_, ?_, ?_⟩
  · exact claim6_amended.1 envTrailing _ _ _ _
      [(str "SigAlg", str "b"), (str "SAMLRequest", str "a")] [] rfl rfl
      (by decide) (by decide) (by decide) (by decide)
  · exact claim6_amended.2.1 envTrailing _ [0] [] 1 1 [7] rfl (by decide)
  · exact claim6_amended.2.2 envTrailing _ [1] [] 0 1 rfl (by decide)

/-! ## Canonical string round-trip (claim C2)

A raw HTTP-Redirect query is assembled from parameter pairs in an arbitrary
order and fed back through the canonicalisation steps of `verifySignature`. -/

/-- One query component `key=value`. -/
def renderPair (p : List Char × List Char) : List Char := p.1 ++ '=' :: p.2

/-- A raw query assembled from parameter pairs in the given order. -/
def renderQuery (pairs : List (List Char × List Char)) : List Char :=
  ['&'].intercalate (pairs.map renderPair)

theorem splitOn_renderPair (k v : List Char) (hk : '=' ∉ k) (hv : '=' ∉ v) :
    (renderPair (k, v)).splitOn '=' = [k, v] := by
  have h := List.splitOn_intercalate [k, v] '='
    (by intro l hl; rcases List.mem_cons.mp hl with rfl | hl'
        · exact hk
        · rcases List.mem_cons.mp hl' with rfl | h0
          · exact hv
          · simp at h0)
    (by simp)
  simpa [List.intercalate, List.intersperse, renderPair] using h

theorem splitOn_renderQuery (pairs : List (List Char × List Char))
    (hne : pairs ≠ []) (hamp : ∀ p ∈ pairs, '&' ∉ renderPair p) :
    (renderQuery pairs).splitOn '&' = pairs.map renderPair :=
  List.splitOn_intercalate (pairs.map renderPair) '&'
    (by intro l hl
        obtain ⟨p, hp, rfl⟩ := List.mem_map.mp hl
        exact hamp p hp)
    (by simpa using hne)

theorem buildPMap_renders :
    ∀ (pairs m : List (List Char × List Char)),
      (∀ p ∈ pairs, '=' ∉ p.1 ∧ '=' ∉ p.2) →
      buildPMap (pairs.map renderPair) m = .ok (pairs.reverse ++ m) := by
  intro pairs
  induction pairs with
  | nil => intro m _; simp [buildPMap]
  | cons p ps ih =>
    intro m hgood
    obtain ⟨hk, hv⟩ := hgood p (List.mem_cons_self p ps)
    simp only [List.map_cons, buildPMap]
    rw [splitOn_renderPair p.1 p.2 hk hv]
    show buildPMap (List.map renderPair ps) ((p.1, p.2) :: m) =
      Except.ok ((p :: ps).reverse ++ m)
    rw [ih ((p.1, p.2) :: m) (fun q hq => hgood q (List.mem_cons_of_mem p hq))]
    simp

theorem find?_of_nodupKeys :
    ∀ (l : List (List Char × List Char)) (k v : List Char),
      (l.map Prod.fst).Nodup → (k, v) ∈ l →
      l.find? (fun p => decide (p.1 = k)) = some (k, v) := by
  intro l
  induction l with
  | nil => intro k v _ h; simp at h
  | cons q qs ih =>
    intro k v hnd hmem
    rcases List.mem_cons.mp hmem with rfl | hmem'
    · simp [List.find?]
    · have hnd0 : q.1 ∉ qs.map Prod.fst ∧ (qs.map Prod.fst).Nodup := by
        rw [List.map_cons] at hnd
        exact List.nodup_cons.mp hnd
      have hq : ¬(q.1 = k) := by
        intro he
        exact hnd0.1 (by rw [he]; exact List.mem_map_of_mem Prod.fst hmem')
      simp only [List.find?]
      rw [decide_eq_false hq]
      exact ih k v hnd0.2 hmem'

theorem mapFind_reverse_some (pairs : List (List Char × List Char))
    (k v : List Char) (hnd : (pairs.map Prod.fst).Nodup) (hmem : (k, v) ∈ pairs) :
    mapFind pairs.reverse k = some v := by
  unfold mapFind
  rw [find?_of_nodupKeys pairs.reverse k v
    (by rw [List.map_reverse]; exact List.nodup_reverse.mpr hnd)
    (List.mem_reverse.mpr hmem)]
  rfl

theorem mapFind_reverse_none (pairs : List (List Char × List Char))
    (k : List Char) (habs : ∀ p ∈ pairs, p.1 ≠ k) :
    mapFind pairs.reverse k = none := by
  unfold mapFind
  rw [List.find?_eq_none.mpr]
  · rfl
  · intro p hp
    simpa using habs p (List.mem_reverse.mp hp)

theorem intercalate_pair (x y : List Char) :
    (str "&").intercalate [x, y] = x ++ '&' :: y := by
  simp [str, List.intercalate, List.intersperse]

theorem intercalate_triple (x y z : List Char) :
    (str "&").intercalate [x, y, z] = x ++ '&' :: (y ++ '&' :: z) := by
  simp [str, List.intercalate, List.intersperse]

/-- Claim C2: for a raw query assembled from distinct-key parameters (in any
order, values still URL-encoded and hence free of `&` and `=`), the byte
string over which `verifySignature` computes the digest is exactly
`SAMLRequest=<v>`, then `&RelayState=<v>` if and only if `RelayState` is
present, then `&SigAlg=<v>`, each value taken verbatim from the raw query. -/
theorem claim2_canonical_digest_string (pairs : List (List Char × List Char))
    (vS vA : List Char)
    (hnodup : (pairs.map Prod.fst).Nodup)
    (hchars : ∀ p ∈ pairs, '&' ∉ p.1 ∧ '&' ∉ p.2 ∧ '=' ∉ p.1 ∧ '=' ∉ p.2)
    (hS : (str "SAMLRequest", vS) ∈ pairs)
    (hA : (str "SigAlg", vA) ∈ pairs) :
    canonicalOfQuery (renderQuery pairs) =
      .ok (match pairs.find? (fun p => decide (p.1 = str "RelayState")) with
        | some pr =>
            str "SAMLRequest=" ++ vS ++ str "&RelayState=" ++ pr.2 ++
              str "&SigAlg=" ++ vA
        | none => str "SAMLRequest=" ++ vS ++ str "&SigAlg=" ++ vA) := by
  have hne : pairs ≠ [] := by rintro rfl; simp at hS
  have hamp : ∀ p ∈ pairs, '&' ∉ renderPair p := by
    intro p hp
    obtain ⟨h1, h2, _, _⟩ := hchars p hp
    simp only [renderPair, List.mem_append, List.mem_cons]
    rintro (h | h | h)
    · exact h1 h
    · exact absurd h (by decide)
    · exact h2 h
  have hconsR : str "&RelayState=" = '&' :: str "RelayState=" := rfl
  have hconsA : str "&SigAlg=" = '&' :: str "SigAlg=" := rfl
  unfold canonicalOfQuery
  rw [splitOn_renderQuery pairs hne hamp,
      buildPMap_renders pairs []
        (fun p hp => ⟨(hchars p hp).2.2.1, (hchars p hp).2.2.2⟩),
      List.append_nil]
  have hSfind := mapFind_reverse_some pairs (str "SAMLRequest") vS hnodup hS
  have hAfind := mapFind_reverse_some pairs (str "SigAlg") vA hnodup hA
  cases hrel : pairs.find? (fun p => decide (p.1 = str "RelayState")) with
  | none =>
    have habs : ∀ p ∈ pairs, p.1 ≠ str "RelayState" := by
      intro p hp
      have := List.find?_eq_none.mp hrel p hp
      simpa using this
    have hRfind := mapFind_reverse_none pairs (str "RelayState") habs
    simp only [Except.map, canonicalSigString, hSfind, hAfind, hRfind,
      Option.getD_some]
    simp only [List.cons_append, List.nil_append]
    rw [intercalate_pair]
    simp [hconsA, List.append_assoc]
  | some pr =>
    have hpr1 : pr.1 = str "RelayState" := by
      have := List.find?_some hrel
      simpa using this
    have hprmem : pr ∈ pairs := List.mem_of_find?_eq_some hrel
    have hRfind : mapFind pairs.reverse (str "RelayState") = some pr.2 := by
      apply mapFind_reverse_some pairs _ pr.2 hnodup
      have hpp : (pr.1, pr.2) ∈ pairs := by simpa using hprmem
      rwa [hpr1] at hpp
    simp only [Except.map, canonicalSigString, hSfind, hAfind, hRfind,
      Option.getD_some]
    simp only [List.cons_append, List.nil_append]
    rw [intercalate_triple]
    simp [hconsR, hconsA, List.append_assoc]

/-- Claim C2 witness: a concrete three-parameter query given in the order
`SigAlg`, `SAMLRequest`, `RelayState` canonicalises to
`SAMLRequest=REQ&RelayState=RS&SigAlg=ALG`. -/
theorem claim2_witness :
    canonicalOfQuery (renderQuery
      [(str "SigAlg", str "ALG"), (str "SAMLRequest", str "REQ"),
       (str "RelayState", str "RS")]) =
      .ok (str "SAMLRequest=REQ&RelayState=RS&SigAlg=ALG") := by
  have h := claim2_canonical_digest_string
    [(str "SigAlg", str "ALG"), (str "SAMLRequest", str "REQ"),
     (str "RelayState", str "RS")]
    (str "REQ") (str "ALG") (by decide) (by decide) (by decide) (by decide)
  exact h.trans (by rfl)

/-! ## Certificate parsing and SP registration (idp/sp.go lines 38-49 and
the bootstrap's configureSPs) -/

/-- External X.509 machinery used by `parseCertificate`: base64 decoding of
the configured certificate string and DER certificate parsing, the latter
abstracted to the only certificate field the code reads, `PublicKey`. Go's
`x509.ParseCertificate` can produce RSA, DSA, ECDSA or Ed25519 keys. -/
structure X509Env where
  b64decode : String → Option (List Nat)
  parseCert : List Nat → Option PublicKey

/-- Embeds `parseCertificate` from idp/sp.go lines 38-49: base64-decode the
certificate, parse it, and store its public key on the SP. -/
def parseCertificate (env : X509Env) (sp : ServiceProvider) :
    Except String ServiceProvider :=
  match env.b64decode sp.Certificate with
  | none => .error "failed to parse PEM block containing the public key"
  | some block =>
    match env.parseCert block with
    | none => .error "failed to parse certificate"
    | some key => .ok { sp with publicKey := some key }

/-- Embeds the registration loop of `configureSPs` (bootstrap): every SP's
certificate must parse — any failure aborts the whole bootstrap — and each
surviving SP is keyed by its entity ID. -/
def configureSPs (env : X509Env) : List ServiceProvider →
    Except String (List (String × ServiceProvider))
  | [] => .ok []
  | sp :: rest =>
    match parseCertificate env sp with
    | .error e => .error e
    | .ok sp' =>
      match configureSPs env rest with
      | .error e => .error e
      | .ok reg => .ok ((sp'.EntityID, sp') :: reg)

/-- An X.509 environment whose certificate parses to an ECDSA public key,
as Go's parser produces for an ECDSA-signed SP certificate. -/
def envEcdsa : X509Env where
  b64decode := fun _ => some [48]
  parseCert := fun _ => some (.ecdsa 0)

/-- The SP configured with an ECDSA certificate, before registration. -/
def spEcdsaIn : ServiceProvider where
  EntityID := "https://sp.example/"
  AssertionConsumerServices := []
  Certificate := "MIIB"

/-- The same SP as the registry stores it after `configureSPs`. -/
def spEcdsaOut : ServiceProvider where
  EntityID := "https://sp.example/"
  AssertionConsumerServices := []
  Certificate := "MIIB"
  publicKey := some (.ecdsa 0)

/-- Claim C3 (counterexample): an SP whose certificate carries an ECDSA
public key passes `configureSPs` and enters the registry, its stored key is
neither RSA nor DSA, and `verifySignature` on a well-formed query with the
rsa-sha1 algorithm then panics on the failed type assertion instead of
returning an error. -/
theorem claim3_counterexample :
    configureSPs envEcdsa [spEcdsaIn] = .ok [("https://sp.example/", spEcdsaOut)]
    ∧ spEcdsaOut.publicKey = some (.ecdsa 0)
    ∧ verifySignature envNull (str "SAMLRequest=a&SigAlg=b") (str rsaSha1URI)
        (str "") spEcdsaOut = .panicked := by
  refine ⟨rfl, rfl, by decide⟩

/-- Claim C3 (amended): every SP placed in the registry passed
`parseCertificate`: its certificate string base64-decodes and parses as an
X.509 certificate, and the stored `publicKey` is exactly that certificate's
key — of whatever kind the parser produced (RSA, DSA, ECDSA or Ed25519), so
the RSA/DSA type assertions in `verifySignature` are not guaranteed safe. -/
theorem claim3_amended (env : X509Env) (sps : List ServiceProvider)
    (reg : List (String × ServiceProvider))
    (hreg : configureSPs env sps = .ok reg) :
    ∀ e sp, (e, sp) ∈ reg →
      ∃ block key, env.b64decode sp.Certificate = some block ∧
        env.parseCert block = some key ∧
        sp.publicKey = some key ∧ e = sp.EntityID := by
  induction sps generalizing reg with
  | nil =>
    simp only [configureSPs, Except.ok.injEq] at hreg
    subst hreg
    intro e sp h
    simp at h
  | cons sp0 rest ih =>
    simp only [configureSPs] at hreg
    cases hpc : parseCertificate env sp0 with
    | error e0 => rw [hpc] at hreg; cases hreg
    | ok sp' =>
      rw [hpc] at hreg
      cases hrec : configureSPs env rest with
      | error e0 => rw [hrec] at hreg; cases hreg
      | ok reg' =>
        rw [hrec] at hreg
        simp only [Except.ok.injEq] at hreg
        subst hreg
        intro e sp hmem
        rcases List.mem_cons.mp hmem with heq | hmem'
        · obtain ⟨rfl, rfl⟩ := Prod.mk.injEq .. ▸ heq
          unfold parseCertificate at hpc
          cases hb : env.b64decode sp0.Certificate with
          | none => rw [hb] at hpc; cases hpc
          | some block =>
            simp only [hb] at hpc
            cases hp : env.parseCert block with
            | none => simp only [hp] at hpc; cases hpc
            | some key =>
              simp only [hp, Except.ok.injEq] at hpc
              subst hpc
              exact ⟨block, key, hb, hp, rfl, rfl⟩
        · exact ih reg' hrec e sp hmem'

/-- Claim C3 witness: the amended statement instantiated at the concrete
ECDSA service provider. -/
theorem claim3_witness :
    ∃ block key, envEcdsa.b64decode spEcdsaOut.Certificate = some block ∧
      envEcdsa.parseCert block = some key ∧
      spEcdsaOut.publicKey = some key ∧
      "https://sp.example/" = spEcdsaOut.EntityID :=
  claim3_amended envEcdsa [spEcdsaIn] [("https://sp.example/", spEcdsaOut)] rfl
    "https://sp.example/" spEcdsaOut (by decide)

/-! ## Artifact construction (idp/response.go, getArtifact lines 133-155) -/

/-- Embeds the byte-copy loops of `getArtifact`:
`for i := off; i < off+len(src); i++ { dst[i] = src[i-off] }`. -/
def copyInto : List Nat → Nat → List Nat → List Nat
  | dst, _, [] => dst
  | dst, off, b :: src => copyInto (dst.set off b) (off + 1) src

theorem copyInto_eq :
    ∀ (src dst : List Nat) (off : Nat),
      off + src.length ≤ dst.length →
      copyInto dst off src =
        dst.take off ++ src ++ dst.drop (off + src.length) := by
  intro src
  induction src with
  | nil =>
    intro dst off h
    simp [copyInto]
  | cons b src ih =>
    intro dst off h
    have hofflt : off < dst.length := by
      simp only [List.length_cons] at h
      omega
    have hlen : off + 1 + src.length ≤ (dst.set off b).length := by
      simp only [List.length_set]
      simp only [List.length_cons] at h
      omega
    simp only [copyInto]
    rw [ih (dst.set off b) (off + 1) hlen]
    have hset : dst.set off b = dst.take off ++ b :: dst.drop (off + 1) := by
      rw [List.set_eq_take_append_cons_drop, if_pos hofflt]
    have htakelen : (dst.take off).length = off := by
      rw [List.length_take]
      omega
    have htake : (dst.set off b).take (off + 1) = dst.take off ++ [b] := by
      rw [hset, List.take_append_eq_append_take,
        List.take_of_length_le (by omega : (dst.take off).length ≤ off + 1),
        htakelen]
      simp
    have hdrop : (dst.set off b).drop (off + 1 + src.length) =
        dst.drop (off + 1 + src.length) := by
      rw [List.drop_set, if_pos (by omega)]
    rw [htake, hdrop]
    have harith : off + 1 + src.length = off + (src.length + 1) := by omega
    rw [harith]
    simp [List.append_assoc]

/-- Standard base64 alphabet (encoding/base64 StdEncoding). -/
def b64chars : List Char :=
  str "ABCDEFGHIJKLMNOPQRSTUVWXYZabcdefghijklmnopqrstuvwxyz0123456789+/"

/-- Standard base64 encoding with `=` padding, as
`base64.StdEncoding.EncodeToString` produces. -/
def base64Encode : List Nat → List Char
  | [] => []
  | [b1] =>
    [b64chars.getD (b1 / 4) ' ', b64chars.getD (b1 % 4 * 16) ' ', '=', '=']
  | [b1, b2] =>
    [b64chars.getD (b1 / 4) ' ', b64chars.getD (b1 % 4 * 16 + b2 / 16) ' ',
     b64chars.getD (b2 % 16 * 4) ' ', '=']
  | b1 :: b2 :: b3 :: rest =>
    b64chars.getD (b1 / 4) ' ' :: b64chars.getD (b1 % 4 * 16 + b2 / 16) ' ' ::
      b64chars.getD (b2 % 16 * 4 + b3 / 64) ' ' :: b64chars.getD (b3 % 64) ' ' ::
        base64Encode rest

/-- Embeds the byte-array construction of `getArtifact`: a zeroed 44-byte
array, `artifact[1] = 4`, `artifact[3] = 1`, the SHA-1 of the entity ID
copied at offset 4 and the SHA-1 of the freshly generated UUID string at
offset 24. The SHA-1 primitive and the fresh UUID are explicit parameters. -/
def getArtifactBytes (sha1 : String → List Nat) (entityID uuid : String) :
    List Nat :=
  let artifact := List.replicate 44 0
  let artifact := artifact.set 1 4
  let artifact := artifact.set 3 1
  let artifact := copyInto artifact 4 (sha1 entityID)
  copyInto artifact 24 (sha1 uuid)

/-- Embeds `getArtifact` from idp/response.go lines 133-155: the standard
base64 encoding of the 44-byte artifact. -/
def getArtifact (sha1 : String → List Nat) (entityID uuid : String) : String :=
  String.mk (base64Encode (getArtifactBytes sha1 entityID uuid))

theorem artifact_concat (e u : List Nat) (he : e.length = 20)
    (hu : u.length = 20) :
    copyInto (copyInto (((List.replicate 44 0).set 1 4).set 3 1) 4 e) 24 u =
      [0, 4, 0, 1] ++ e ++ u := by
  have hb : ((List.replicate 44 (0 : Nat)).set 1 4).set 3 1 =
      [0, 4, 0, 1] ++ List.replicate 40 0 := by decide
  rw [hb, copyInto_eq e _ 4 (by simp [he])]
  have htake4 : ([0, 4, 0, 1] ++ List.replicate (40 : Nat) 0).take 4 =
      [0, 4, 0, 1] := by decide
  have hdrop : ([0, 4, 0, 1] ++ List.replicate (40 : Nat) 0).drop (4 + e.length) =
      List.replicate 20 0 := by
    rw [he]
    decide
  rw [htake4, hdrop, copyInto_eq u _ 24 (by simp [he, hu])]
  have htk : ([0, 4, 0, 1] ++ (e ++ List.replicate (20 : Nat) 0)).take 24 =
      [0, 4, 0, 1] ++ e := by
    rw [List.take_append_eq_append_take, List.take_append_eq_append_take]
    simp [he, List.take_of_length_le]
  have hdr : ([0, 4, 0, 1] ++ (e ++ List.replicate (20 : Nat) 0)).drop
      (24 + u.length) = [] := by
    apply List.drop_eq_nil_of_le
    simp [he, hu]
  rw [List.append_assoc ([0, 4, 0, 1] : List Nat) e (List.replicate 20 0)]
  rw [htk, hdr]
  simp [List.append_assoc]

theorem getArtifactBytes_eq (sha1 : String → List Nat)
    (h20 : ∀ s, (sha1 s).length = 20) (entityID uuid : String) :
    getArtifactBytes sha1 entityID uuid =
      [0, 4, 0, 1] ++ sha1 entityID ++ sha1 uuid := by
  show copyInto
      (copyInto (((List.replicate 44 0).set 1 4).set 3 1) 4 (sha1 entityID))
      24 (sha1 uuid) = [0, 4, 0, 1] ++ sha1 entityID ++ sha1 uuid
  exact artifact_concat (sha1 entityID) (sha1 uuid) (h20 entityID) (h20 uuid)

/-- Claim C4: each artifact is the standard base64 encoding of exactly 44
bytes laid out as `0x00 0x04`, `0x00 0x01`, SHA-1 of the entity ID, SHA-1
of the fresh UUID string; distinct UUID hashes give distinct final 20-byte
blocks. -/
theorem claim4_artifact_layout (sha1 : String → List Nat)
    (h20 : ∀ s, (sha1 s).length = 20) (entityID uuid : String) :
    getArtifact sha1 entityID uuid =
      String.mk (base64Encode ([0, 4, 0, 1] ++ sha1 entityID ++ sha1 uuid)) ∧
    (getArtifactBytes sha1 entityID uuid).length = 44 ∧
    (getArtifactBytes sha1 entityID uuid).take 4 = [0, 4, 0, 1] ∧
    ((getArtifactBytes sha1 entityID uuid).drop 4).take 20 = sha1 entityID ∧
    (getArtifactBytes sha1 entityID uuid).drop 24 = sha1 uuid ∧
    (∀ uuid2, sha1 uuid ≠ sha1 uuid2 →
      (getArtifactBytes sha1 entityID uuid).drop 24 ≠
        (getArtifactBytes sha1 entityID uuid2).drop 24) := by
  have he := getArtifactBytes_eq sha1 h20 entityID uuid
  refine ⟨by rw [getArtifact, he], by rw [he]; simp [h20], ?_, ?_, ?_, ?_⟩
  · rw [he]
    rfl
  · rw [he]
    rw [List.drop_append_eq_append_drop]
    simp [h20, List.take_append_eq_append_take]
  · rw [he]
    rw [List.drop_append_eq_append_drop, List.drop_append_eq_append_drop]
    simp [h20]
  · intro uuid2 hne
    rw [he, getArtifactBytes_eq sha1 h20 entityID uuid2]
    rw [List.drop_append_eq_append_drop, List.drop_append_eq_append_drop,
      List.drop_append_eq_append_drop, List.drop_append_eq_append_drop]
    simpa [h20] using hne

/-- A concrete 20-byte "hash" standing in for SHA-1 in the witness. -/
def sha1Stub (s : String) : List Nat :=
  (List.range 20).map (fun i => (i + s.length) % 256)

/-- Claim C4 witness: the layout instantiated at a concrete hash function,
entity ID and UUID. -/
theorem claim4_witness :
    getArtifact sha1Stub "https://idp.example/" "uuid-1" =
      String.mk (base64Encode
        ([0, 4, 0, 1] ++ sha1Stub "https://idp.example/" ++ sha1Stub "uuid-1")) ∧
    (getArtifactBytes sha1Stub "https://idp.example/" "uuid-1").length = 44 ∧
    (getArtifactBytes sha1Stub "https://idp.example/" "uuid-1").take 4 =
      [0, 4, 0, 1] ∧
    ((getArtifactBytes sha1Stub "https://idp.example/" "uuid-1").drop 4).take 20 =
      sha1Stub "https://idp.example/" ∧
    (getArtifactBytes sha1Stub "https://idp.example/" "uuid-1").drop 24 =
      sha1Stub "uuid-1" ∧
    (∀ uuid2, sha1Stub "uuid-1" ≠ sha1Stub uuid2 →
      (getArtifactBytes sha1Stub "https://idp.example/" "uuid-1").drop 24 ≠
        (getArtifactBytes sha1Stub "https://idp.example/" uuid2).drop 24) :=
  claim4_artifact_layout sha1Stub
    (by intro s; simp [sha1Stub]) "https://idp.example/" "uuid-1"

/-! ## Response construction (idp/response.go makeResponse lines 88-131 and
makeAuthnResponse lines 61-86)

Time instants are seconds since an arbitrary origin; `time.Now().UTC()` is
sampled separately by each of the two functions, so each takes its own
clock value. Fresh `saml.NewID()` results are explicit parameters. -/

/-- Embeds `saml.NameID`. -/
structure NameID where
  Format : String
  NameQualifier : String
  SPNameQualifier : String
  Value : String
deriving DecidableEq, Repr

/-- Embeds `saml.SubjectConfirmationData`. -/
structure SubjectConfirmationData where
  Address : String
  InResponseTo : String
  Recipient : String
  NotOnOrAfter : Nat
deriving DecidableEq, Repr

/-- Embeds `saml.SubjectConfirmation`. -/
structure SubjectConfirmation where
  Method : String
  Data : Option SubjectConfirmationData := none
deriving DecidableEq, Repr

/-- Embeds `saml.Subject`. -/
structure Subject where
  NameID : SsoIdp.NameID
  SubjectConfirmation : SsoIdp.SubjectConfirmation
deriving DecidableEq, Repr

/-- Embeds `saml.AudienceRestriction`. -/
structure AudienceRestriction where
  Audience : String
deriving DecidableEq, Repr

/-- Embeds `saml.Conditions`. -/
structure Conditions where
  NotOnOrAfter : Nat
  NotBefore : Nat
  AudienceRestriction : SsoIdp.AudienceRestriction
deriving DecidableEq, Repr

/-- Embeds `saml.SubjectLocality`. -/
structure SubjectLocality where
  DNSName : String
deriving DecidableEq, Repr

/-- Embeds `saml.AuthnContext`. -/
structure AuthnContext where
  AuthnContextClassRef : String
deriving DecidableEq, Repr

/-- Embeds `saml.AuthnStatement`. -/
structure AuthnStatement where
  AuthnInstant : Nat
  SessionIndex : String
  SubjectLocality : SsoIdp.SubjectLocality
  AuthnContext : SsoIdp.AuthnContext
deriving DecidableEq, Repr

/-- Embeds `saml.Assertion` (the fields `makeResponse` populates). -/
structure Assertion where
  ID : String
  IssueInstant : Nat
  Issuer : String
  Version : String
  Subject : SsoIdp.Subject
  AttributeStatement : List (String × List String)
  Conditions : SsoIdp.Conditions
  AuthnStatement : Option SsoIdp.AuthnStatement := none
deriving DecidableEq, Repr

/-- Embeds `saml.Response` together with its embedded
`StatusResponseType` (the fields `makeResponse` populates; `Status` is
abstracted to its status-code value). -/
structure SamlResponse where
  Version : String
  ID : String
  IssueInstant : Nat
  StatusCode : String
  InResponseTo : String
  Issuer : String
  Assertion : SsoIdp.Assertion
deriving DecidableEq, Repr

/-- Embeds `model.User` (the fields the response pipeline reads). -/
structure User where
  Name : String
  Format : String
  Context : String
  IP : String
  Attributes : List (String × List String)
deriving DecidableEq, Repr

/-- Embeds the internal `model.AuthnRequest` saved across the login flow. -/
structure ModelAuthnRequest where
  ID : String
  Issuer : String
  AssertionConsumerServiceURL : String
  ProtocolBinding : String
  RelayState : String
deriving DecidableEq, Repr

/-- Embeds `makeResponse` from idp/response.go lines 88-131. `now` is
`time.Now().UTC()` sampled in this call; `respID` and `assertionID` are the
two `saml.NewID()` results. -/
def makeResponse (entityID : String) (now : Nat) (respID assertionID : String)
    (id issuer : String) (user : User) : SamlResponse :=
  let fiveFromNow := now + 300
  { Version := "2.0"
    ID := respID
    IssueInstant := now
    StatusCode := "urn:oasis:names:tc:SAML:2.0:status:Success"
    InResponseTo := id
    Issuer := entityID
    Assertion := {
      ID := assertionID
      IssueInstant := now
      Issuer := entityID
      Version := "2.0"
      Subject := {
        NameID := {
          Format := user.Format
          NameQualifier := entityID
          SPNameQualifier := issuer
          Value := user.Name }
        SubjectConfirmation := {
          Method := "urn:oasis:names:tc:SAML:2.0:cm:sender-vouches" } }
      AttributeStatement := user.Attributes
      Conditions := {
        NotOnOrAfter := fiveFromNow
        NotBefore := now
        AudienceRestriction := { Audience := issuer } } } }

/-- Embeds `makeAuthnResponse` from idp/response.go lines 61-86. `now` is
the clock sample of this call and `nowInner` the one taken inside the nested
`makeResponse` call; `sessionIndex` is the fresh `saml.NewID()`. The
sender-vouches subject confirmation installed by `makeResponse` is
overwritten with the bearer confirmation. -/
def makeAuthnResponse (entityID serverName : String) (now nowInner : Nat)
    (respID assertionID sessionIndex : String)
    (request : ModelAuthnRequest) (user : User) : SamlResponse :=
  let fiveFromNow := now + 300
  let resp := makeResponse entityID nowInner respID assertionID
    request.ID request.Issuer user
  let a := resp.Assertion
  let a := { a with
    AuthnStatement := some {
      AuthnInstant := now
      SessionIndex := sessionIndex
      SubjectLocality := { DNSName := serverName }
      AuthnContext := { AuthnContextClassRef := user.Context } }
    Subject := { a.Subject with
      SubjectConfirmation := {
        Method := "urn:oasis:names:tc:SAML:2.0:cm:bearer"
        Data := some {
          Address := user.IP
          InResponseTo := request.ID
          Recipient := request.AssertionConsumerServiceURL
          NotOnOrAfter := fiveFromNow } } } }
  { resp with Assertion := a }

/-- Claim C5: the response built by `makeAuthnResponse` has
`InResponseTo = req.ID`, `Issuer = entityID`, a Success status, the subject
NameID `{Format = user.Format, NameQualifier = entityID, SPNameQualifier =
req.Issuer, Value = user.Name}`, a bearer subject confirmation with
`InResponseTo = req.ID`, `Recipient = req.AssertionConsumerServiceURL` and
`NotOnOrAfter` five minutes past this call's clock sample, and conditions
`NotBefore`/`NotOnOrAfter` spanning five minutes from the nested call's
clock sample with `Audience = req.Issuer`. -/
theorem claim5_response_postconditions (entityID serverName : String)
    (now nowInner : Nat) (respID assertionID sessionIndex : String)
    (request : ModelAuthnRequest) (user : User) :
    (makeAuthnResponse entityID serverName now nowInner respID assertionID
      sessionIndex request user).InResponseTo = request.ID ∧
    (makeAuthnResponse entityID serverName now nowInner respID assertionID
      sessionIndex request user).Issuer = entityID ∧
    (makeAuthnResponse entityID serverName now nowInner respID assertionID
      sessionIndex request user).StatusCode =
        "urn:oasis:names:tc:SAML:2.0:status:Success" ∧
    (makeAuthnResponse entityID serverName now nowInner respID assertionID
      sessionIndex request user).Assertion.Subject.NameID =
      { Format := user.Format, NameQualifier := entityID,
        SPNameQualifier := request.Issuer, Value := user.Name } ∧
    (makeAuthnResponse entityID serverName now nowInner respID assertionID
      sessionIndex request user).Assertion.Subject.SubjectConfirmation =
      { Method := "urn:oasis:names:tc:SAML:2.0:cm:bearer"
        Data := some {
          Address := user.IP
          InResponseTo := request.ID
          Recipient := request.AssertionConsumerServiceURL
          NotOnOrAfter := now + 300 } } ∧
    (makeAuthnResponse entityID serverName now nowInner respID assertionID
      sessionIndex request user).Assertion.Conditions =
      { NotOnOrAfter := nowInner + 300, NotBefore := nowInner,
        AudienceRestriction := { Audience := request.Issuer } } :=
  ⟨rfl, rfl, rfl, rfl, rfl, rfl⟩

/-! ## Engine state and handlers (idp/password.go, idp/artifact.go,
idp/response.go respond)

The `store` package is not part of the sources; its caches are modelled
from the specification's cache contract (§4.2). Serialization
(`proto.Marshal`/`Unmarshal`) is embedded as the identity on structured
values, with a tagged entry type standing for the two blob shapes held by
the temp cache. -/

/-- Uppercase hex digits used by percent-encoding. -/
def hexDigit (n : Nat) : Char := (str "0123456789ABCDEF").getD n '0'

/-- Bytes Go's `url.QueryEscape` leaves unescaped. -/
def isUnreservedQueryByte (c : Char) : Bool :=
  decide (('A' ≤ c ∧ c ≤ 'Z') ∨ ('a' ≤ c ∧ c ≤ 'z') ∨ ('0' ≤ c ∧ c ≤ '9') ∨
    c = '-' ∨ c = '_' ∨ c = '.' ∨ c = '~')

/-- One character of Go's `url.QueryEscape`: unreserved bytes survive,
space becomes `+`, anything else is percent-encoded. -/
def queryEscapeChar (c : Char) : List Char :=
  if isUnreservedQueryByte c then [c]
  else if c = ' ' then ['+']
  else ['%', hexDigit (c.toNat / 16 % 16), hexDigit (c.toNat % 16)]

/-- Embeds `url.QueryEscape` (for the ASCII strings the engine escapes). -/
def queryEscape (s : String) : String :=
  String.mk (s.toList.map queryEscapeChar).flatten

/-- The session cookie written by `respond`. -/
structure Cookie where
  Name : String
  Path : String
  Value : String
  Secure : Bool
  HttpOnly : Bool
deriving DecidableEq, Repr

/-- The `model.ArtifactResponse` blob cached under an artifact key. -/
structure ArtifactBlob where
  Request : ModelAuthnRequest
  User : SsoIdp.User
deriving DecidableEq, Repr

/-- A temp-cache entry: either a saved `model.AuthnRequest` (keyed by a
request UUID) or a `model.ArtifactResponse` blob (keyed by an artifact). -/
inductive TempEntry where
  | req (r : ModelAuthnRequest)
  | art (a : ArtifactBlob)
deriving DecidableEq, Repr

/-- The HTTP effect of one handler invocation. -/
inductive HttpOut where
  | redirect (location : String) (status : Nat)
  | errorOut (msg : String) (status : Nat)
  | postPage (acs : String)
  | ecpPage (acs : String)
  | artifactEnvelope (inResponseTo : String) (response : SamlResponse)
deriving DecidableEq, Repr

/-- The mutable engine state a handler touches: the two caches and the
cookies set on the response. -/
structure IDPState where
  tempCache : List (String × TempEntry)
  userCache : List (String × SsoIdp.User)
  setCookies : List Cookie
deriving DecidableEq, Repr

/-- Modelled from the spec: `store.Cache.Get` of §4.2 (the store package is
absent from the sources) — returns the stored value without consuming it;
`none` covers both `NotFound` and `Expired`. -/
def cacheGet {α : Type} (c : List (String × α)) (k : String) : Option α :=
  (c.find? (fun p => decide (p.1 = k))).map Prod.snd

/-- Modelled from the spec: `store.Cache.Set` of §4.2 — inserts or
replaces; the newest binding shadows older ones. -/
def cacheSet {α : Type} (c : List (String × α)) (k : String) (v : α) :
    List (String × α) :=
  (k, v) :: c

/-- Embeds `loginWithPasswordForm` from idp/sso.go lines 328-345: a
validator failure becomes `ErrInvalidPassword` (the error payload is
dropped), success builds the password-context user carrying the validator's
attributes. -/
def loginWithPasswordForm
    (validator : String → String → Except String (List (String × List String)))
    (username password ip : String) : Except Unit User :=
  match validator username password with
  | .error _ => .error ()
  | .ok attrs =>
    .ok { Name := username
          Format := "urn:oasis:names:tc:SAML:1.1:nameid-format:unspecified"
          Context := "urn:oasis:names:tc:SAML:2.0:ac:classes:PasswordProtectedTransport"
          IP := ip
          Attributes := attrs }

/-- Embeds `sendArtifactResponse` from idp/artifact.go lines 103-128: cache
the `{request, user}` blob under the artifact and 302-redirect to the ACS
with `RelayState` and `SAMLart` (in `url.Values.Encode`'s sorted key
order). The freshly generated artifact is a parameter. -/
def sendArtifactResponse (artifact : String) (st : IDPState)
    (authRequest : ModelAuthnRequest) (user : User) :
    Except String HttpOut × IDPState :=
  let blob : ArtifactBlob := { Request := authRequest, User := user }
  let st := { st with tempCache := cacheSet st.tempCache artifact (.art blob) }
  (.ok (.redirect (authRequest.AssertionConsumerServiceURL ++ "?RelayState=" ++
      queryEscape authRequest.RelayState ++ "&SAMLart=" ++ queryEscape artifact)
    302), st)

/-- Embeds `respond` from idp/response.go lines 30-59: store the user under
the fresh session UUID, set the session cookie, then dispatch on the
binding; POST and PAOS deliveries are opaque page outputs here. -/
def respond (cookieName session artifact : String) (st : IDPState)
    (authRequest : ModelAuthnRequest) (user : User) :
    Except String HttpOut × IDPState :=
  let st := { st with userCache := cacheSet st.userCache session user }
  let st := { st with setCookies := st.setCookies ++
      [{ Name := cookieName, Path := "/", Value := session,
         Secure := true, HttpOnly := true }] }
  match authRequest.ProtocolBinding with
  | "urn:oasis:names:tc:SAML:2.0:bindings:HTTP-Artifact" =>
    sendArtifactResponse artifact st authRequest user
  | "urn:oasis:names:tc:SAML:2.0:bindings:HTTP-POST" =>
    (.ok (.postPage authRequest.AssertionConsumerServiceURL), st)
  | "urn:oasis:names:tc:SAML:2.0:bindings:PAOS" =>
    (.ok (.ecpPage authRequest.AssertionConsumerServiceURL), st)
  | _ => (.error "unsupported protocol binding", st)

/-- Embeds `DefaultPasswordLoginHandler` from idp/password.go lines 57-89:
fetch and decode the cached request, attempt the password login, `respond`
on success; any error path 302-redirects back to the login page with the
error text in the query string. A missing cache entry reads as the spec's
`NotFound`; a blob of the wrong shape stands for a protobuf decode
failure. -/
def defaultPasswordLoginHandler
    (validator : String → String → Except String (List (String × List String)))
    (cookieName session artifact : String) (st : IDPState)
    (requestId username password ip : String) : HttpOut × IDPState :=
  match cacheGet st.tempCache requestId with
  | none =>
    (.redirect ("/idp/static/login.html?requestId=" ++ queryEscape requestId ++
        "&error=" ++ queryEscape "not found") 302, st)
  | some (.art _) =>
    (.redirect ("/idp/static/login.html?requestId=" ++ queryEscape requestId ++
        "&error=" ++ queryEscape "proto: cannot parse") 302, st)
  | some (.req req) =>
    match loginWithPasswordForm validator username password ip with
    | .ok user =>
      match respond cookieName session artifact st req user with
      | (.ok out, st') => (out, st')
      | (.error e, st') =>
        (.redirect ("/idp/static/login.html?requestId=" ++
            queryEscape requestId ++ "&error=" ++ queryEscape e) 302, st')
    | .error _ =>
      (.redirect ("/idp/static/login.html?requestId=" ++ queryEscape requestId ++
          "&error=" ++
          queryEscape "invalid login or password. Please try again") 302, st)

/-- Embeds `processArtifactResolutionRequest` from idp/artifact.go lines
43-101: look the artifact up in the temp cache (HTTP 500 on a miss),
rebuild the authentication response from the cached blob and emit the
`ArtifactResponse` envelope. No `Delete` is issued against the cache. -/
def processArtifactResolutionRequest (entityID serverName : String)
    (now nowInner : Nat) (respID assertionID sessionIndex resolveID : String)
    (st : IDPState) (artifact : String) : HttpOut × IDPState :=
  match cacheGet st.tempCache artifact with
  | none => (.errorOut "not found" 500, st)
  | some (.req _) => (.errorOut "proto: cannot parse" 500, st)
  | some (.art blob) =>
    (.artifactEnvelope resolveID
      (makeAuthnResponse entityID serverName now nowInner respID assertionID
        sessionIndex blob.Request blob.User), st)

/-- Claim C7: when the request cache holds `requestId` and the password
validator fails, the handler answers a 302 redirect to the login page
carrying the request id and the fixed error text, and the engine state —
cookies, user cache and temp cache — is returned unchanged: no Set-Cookie
and no cache write happen. -/
theorem claim7_invalid_password
    (validator : String → String → Except String (List (String × List String)))
    (cookieName session artifact : String) (st : IDPState)
    (requestId username password ip : String) (req : ModelAuthnRequest)
    (hcached : cacheGet st.tempCache requestId = some (.req req))
    (errText : String)
    (hfail : validator username password = .error errText) :
    defaultPasswordLoginHandler validator cookieName session artifact st
        requestId username password ip =
      (.redirect ("/idp/static/login.html?requestId=" ++ queryEscape requestId ++
          "&error=" ++
          queryEscape "invalid login or password. Please try again") 302, st) := by
  unfold defaultPasswordLoginHandler
  rw [hcached]
  unfold loginWithPasswordForm
  rw [hfail]

/-- A validator that rejects every credential pair, as the LDAP validator
does when the directory bind fails. -/
def validatorReject :
    String → String → Except String (List (String × List String)) :=
  fun _ _ => .error "ldap: invalid credentials"

/-- A cached request awaiting the login form. -/
def reqPending : ModelAuthnRequest where
  ID := "_abc"
  Issuer := "https://sp.example/"
  AssertionConsumerServiceURL := "https://sp.example/acs"
  ProtocolBinding := "urn:oasis:names:tc:SAML:2.0:bindings:HTTP-POST"
  RelayState := "rs"

/-- Engine state holding exactly that pending request. -/
def stPending : IDPState where
  tempCache := [("REQ1", .req reqPending)]
  userCache := []
  setCookies := []

/-- Claim C7 witness: the concrete invalid-password interaction redirects
to the login page with the plus-escaped error text and leaves the state
untouched. -/
theorem claim7_witness :
    defaultPasswordLoginHandler validatorReject "idp-sess" "sess-1" "ART0"
        stPending "REQ1" "alice" "wrong" "127.0.0.1" =
      (.redirect
        "/idp/static/login.html?requestId=REQ1&error=invalid+login+or+password.+Please+try+again"
        302, stPending) :=
  (claim7_invalid_password validatorReject "idp-sess" "sess-1" "ART0" stPending
    "REQ1" "alice" "wrong" "127.0.0.1" reqPending rfl
    "ldap: invalid credentials" rfl).trans (by rfl)

/-! ## LDAP filter construction (client/ldap.go Authenticate line 86) -/

/-- Embeds the filter construction `fmt.Sprintf("(cn=%s)", username)` of
`LdapClient.Authenticate`: the user-supplied name is substituted verbatim,
with no escaping. -/
def ldapSearchFilter (username : String) : String := "(cn=" ++ username ++ ")"

/-- Modelled from the spec: RFC 4515 escaping of LDAP filter
metacharacters (`*`, `(`, `)`, `\`, NUL), which §4.5 requires for the
search filter sent to the directory. -/
def rfc4515Escape (s : String) : String :=
  String.mk ((s.toList.map (fun c =>
    if c = '*' then str "\\2a"
    else if c = '(' then str "\\28"
    else if c = ')' then str "\\29"
    else if c = '\\' then str "\\5c"
    else if c = Char.ofNat 0 then str "\\00"
    else [c])).flatten)

/-- Claim C8: the filter the code sends for the username `*)(cn=*` is the
raw `(cn=*)(cn=*)` — an injected second filter — while the claimed RFC 4515
escaping would send `(cn=\2a\29\28cn=\2a)`; the code performs no escaping. -/
theorem claim8_filter_unescaped :
    ldapSearchFilter "*)(cn=*" = "(cn=*)(cn=*)" ∧
    "(cn=" ++ rfc4515Escape "*)(cn=*" ++ ")" = "(cn=\\2a\\29\\28cn=\\2a)" ∧
    ldapSearchFilter "*)(cn=*" ≠ "(cn=" ++ rfc4515Escape "*)(cn=*" ++ ")" := by
  refine ⟨rfl, rfl, by decide⟩

/-! ## Artifact single-use (claim C9) -/

/-- The authenticated user cached behind the artifact in the scenario. -/
def userArt : User where
  Name := "alice"
  Format := "urn:oasis:names:tc:SAML:1.1:nameid-format:unspecified"
  Context := "urn:oasis:names:tc:SAML:2.0:ac:classes:PasswordProtectedTransport"
  IP := "127.0.0.1"
  Attributes := []

/-- The artifact-binding request behind the artifact in the scenario. -/
def reqArt : ModelAuthnRequest where
  ID := "_abc"
  Issuer := "https://sp.example/"
  AssertionConsumerServiceURL := "https://sp.example/acs"
  ProtocolBinding := "urn:oasis:names:tc:SAML:2.0:bindings:HTTP-Artifact"
  RelayState := "rs"

/-- Engine state right after `sendArtifactResponse` stored the blob under
the artifact `ART`. -/
def stAfterSend : IDPState :=
  (sendArtifactResponse "ART"
    { tempCache := [], userCache := [], setCookies := [] } reqArt userArt).2

/-- Claim C9 (counterexample): after `sendArtifactResponse` stores the
blob, a first `ArtifactResolve` succeeds, leaves the engine state — hence
the cached entry — unchanged, and a second resolve of the same artifact
succeeds identically instead of failing. -/
theorem claim9_counterexample :
    ((processArtifactResolutionRequest "https://idp/" "srv" 0 0 "r" "a" "s"
        "rid" stAfterSend "ART").1 =
      .artifactEnvelope "rid"
        (makeAuthnResponse "https://idp/" "srv" 0 0 "r" "a" "s" reqArt userArt)) ∧
    ((processArtifactResolutionRequest "https://idp/" "srv" 0 0 "r" "a" "s"
        "rid" stAfterSend "ART").2 = stAfterSend) ∧
    ((processArtifactResolutionRequest "https://idp/" "srv" 0 0 "r" "a" "s"
        "rid"
        (processArtifactResolutionRequest "https://idp/" "srv" 0 0 "r" "a" "s"
          "rid" stAfterSend "ART").2 "ART").1 =
      .artifactEnvelope "rid"
        (makeAuthnResponse "https://idp/" "srv" 0 0 "r" "a" "s" reqArt userArt)) :=
  ⟨rfl, rfl, rfl⟩

/-- Claim C9 (amended): an artifact stored by `sendArtifactResponse` stays
in the temp cache after a successful `ArtifactResolve` — the handler issues
no delete, so within the TTL window every repeated resolve of the same
artifact succeeds with the same response; the entry disappears only through
cache expiry. -/
theorem claim9_amended (entityID serverName : String) (now nowInner : Nat)
    (respID assertionID sessionIndex resolveID : String) (st : IDPState)
    (artifact : String) (blob : ArtifactBlob)
    (hhit : cacheGet st.tempCache artifact = some (.art blob)) :
    processArtifactResolutionRequest entityID serverName now nowInner respID
        assertionID sessionIndex resolveID st artifact =
      (.artifactEnvelope resolveID
        (makeAuthnResponse entityID serverName now nowInner respID assertionID
          sessionIndex blob.Request blob.User), st) := by
  unfold processArtifactResolutionRequest
  rw [hhit]

/-- Claim C9 witness: the amended statement instantiated at the state after
`sendArtifactResponse`. -/
theorem claim9_witness :
    processArtifactResolutionRequest "https://idp/" "srv" 5 5 "r2" "a2" "s2"
        "rid2" stAfterSend "ART" =
      (.artifactEnvelope "rid2"
        (makeAuthnResponse "https://idp/" "srv" 5 5 "r2" "a2" "s2" reqArt
          userArt), stAfterSend) :=
  claim9_amended "https://idp/" "srv" 5 5 "r2" "a2" "s2" "rid2" stAfterSend
    "ART" { Request := reqArt, User := userArt } rfl

end SsoIdp
